import Mathlib

/-!
Verification of the PikPak downloader backend (multi-tenant variant,
`app.py` + `database.py`) against its natural-language specification.

The Flask route handlers are shallowly embedded as pure Lean functions.
State that the Python code reads or mutates is passed explicitly:

* the SQLAlchemy tables become lists of `User` / `Task` records,
  queried in insertion order (SQLAlchemy `.first()` with no `order_by`);
* the lazily-initialised global `pikpak_client` becomes a `ClientCtx`
  record threaded through `get_pikpak_client`;
* every call on the upstream PikPak client is recorded in an ordered
  `Effect` trace, and its outcome (Python return value or raised
  exception) is supplied by an `Except String _` oracle argument —
  `.error e` models the call raising an exception whose `str` is `e`;
* Python values that may be absent (`dict.get`) are `Option`s, and
  Python truthiness of strings (`None` and `""` are falsy) is `pyTruthy`.
-/

namespace PikPak

/-- Python truthiness for an optional string: `None` and `""` are falsy. -/
def pyTruthy : Option String → Bool
  | none => false
  | some s => s != ""

/-- A row of the `User` table (`database.py`): integer primary key,
unique username, password hash, optional upstream folder id. -/
structure User where
  id : Nat
  username : String
  password_hash : String
  pikpak_folder_id : Option String
deriving DecidableEq, Repr

/-- A row of the `Task` table (`database.py`): integer primary key,
owning user id, upstream task id, display name, status string. -/
structure Task where
  id : Nat
  user_id : Nat
  pikpak_task_id : String
  name : String
  status : String
deriving DecidableEq, Repr

/-- One call on the upstream PikPak client (or the raw HTTP fetch of the
proxy).  Handlers record these in order; a claim that "no upstream call
is performed" is the statement that the recorded trace is empty. -/
inductive Effect where
  | clientLogin
  | createFolder (name : String)
  | offlineDownload (url : String) (parent : Option String)
  | offlineList (limit : Nat)
  | deleteTasks (ids : List String) (delete_files : Bool)
  | offlineTaskRetry (id : String)
  | offlineFileInfo (id : String)
  | getDownloadUrl (id : String)
  | deleteToTrash (ids : List String)
  | getQuotaInfo
  | httpGet (url : String)
deriving DecidableEq, Repr

/-- Is the effect one of the two per-task upstream operations? -/
def Effect.isTaskOp : Effect → Bool
  | .deleteTasks _ _ => true
  | .offlineTaskRetry _ => true
  | _ => false

/-- JSON response of a handler.  `status` is the HTTP status code,
`error` the `'error'` field, `success` the `'success'` field, and
`redirect` the `Location` of a flask-login redirect.  Endpoint-specific
payloads are carried in the per-handler output structures. -/
structure Resp where
  status : Nat
  error : Option String := none
  success : Option Bool := none
  redirect : Option String := none
deriving DecidableEq, Repr

/-- State of the process-wide lazy client (`app.py` lines 30-48).
`globalSet` is whether the global `pikpak_client` variable is non-`None`;
`envCreds` whether both `PIKPAK_USERNAME` and `PIKPAK_PASSWORD` are set
(truthy); `loginOk` whether `pikpak_client.login()` would succeed when
attempted. -/
structure ClientCtx where
  globalSet : Bool
  envCreds : Bool
  loginOk : Bool
deriving DecidableEq, Repr

/-- Result of `get_pikpak_client`: the returned client (`none` models
Python `None`), the new value of the `globalSet` flag, and the upstream
calls performed.  Mirrors `app.py` lines 33-48: when the global is
already set it is returned with no upstream call; otherwise, with
credentials missing, `None` is returned; otherwise the client is
constructed, **assigned to the global before `login()` runs**, and
`login()` is attempted — on failure the function returns `None` but the
global stays assigned. -/
def get_pikpak_client (c : ClientCtx) : Option Unit × Bool × List Effect :=
  if c.globalSet then (some (), true, [])
  else if !c.envCreds then (none, false, [])
  else if c.loginOk then (some (), true, [.clientLogin])
  else (none, true, [.clientLogin])

/-- A client context in the steady state: the global client is set, so
`get_pikpak_client` returns it with no upstream call. -/
def readyCtx : ClientCtx := { globalSet := true, envCreds := true, loginOk := true }

/-! ### Registration (`register`, app.py lines 77-112) -/

/-- Output of `register`: HTTP response, the `User` table after the
request, the new client flag, and the upstream effect trace. -/
structure RegisterOut where
  resp : Resp
  users : List User
  globalSet : Bool
  effects : List Effect
deriving Repr

/-- `POST /api/register`.  `username`/`password` are the JSON fields
(`data.get`, hence `Option`); `folderOracle` is the outcome of
`client.create_folder(name=username)`, yielding
`folder_creation.get('file', {}).get('id')`; `hash` models
`generate_password_hash`; `nextId` the autoincrement primary key. -/
def register (username password : Option String) (users : List User)
    (c : ClientCtx) (folderOracle : Except String (Option String))
    (hash : String → String) (nextId : Nat) : RegisterOut :=
  if !pyTruthy username || !pyTruthy password then
    { resp := { status := 400, error := some "Username and password required" },
      users := users, globalSet := c.globalSet, effects := [] }
  else
    let uname := username.getD ""
    if (users.filter (fun u => u.username = uname)).head?.isSome then
      { resp := { status := 400, error := some "Username already exists" },
        users := users, globalSet := c.globalSet, effects := [] }
    else
      match get_pikpak_client c with
      | (none, g, fx) =>
          { resp := { status := 500, error := some "Server configuration error" },
            users := users, globalSet := g, effects := fx }
      | (some _, g, fx) =>
          match folderOracle with
          | .error e =>
              { resp := { status := 500,
                          error := some ("Failed to create user storage: " ++ e) },
                users := users, globalSet := g,
                effects := fx ++ [.createFolder uname] }
          | .ok folder_id =>
              { resp := { status := 200, success := some true },
                users := users ++ [{ id := nextId, username := uname,
                                     password_hash := hash (password.getD ""),
                                     pikpak_folder_id := folder_id }],
                globalSet := g, effects := fx ++ [.createFolder uname] }

/-! ### Login (`login`, app.py lines 114-126) -/

/-- Output of `login`: HTTP response and whether `login_user` was called
(a session was established).  `status = 500` models the unhandled
exception raised by `check_password_hash(hash, None)` when the request
carries no password but the username exists. -/
structure LoginOut where
  resp : Resp
  sessionEstablished : Bool
deriving DecidableEq, Repr

/-- `POST /api/login`.  `check h p` models `check_password_hash(h, p)`.
The row lookup is `User.query.filter_by(username=username).first()`:
with `username = None` it matches nothing (the column is
`nullable=False`). -/
def login (username password : Option String) (users : List User)
    (check : String → String → Bool) : LoginOut :=
  let user := (users.filter (fun u => some u.username = username)).head?
  match user with
  | none => { resp := { status := 401, error := some "Invalid credentials" },
              sessionEstablished := false }
  | some u =>
      match password with
      | none =>
          -- check_password_hash(hash, None) raises; Flask turns the
          -- uncaught exception into a 500 with no session established.
          { resp := { status := 500 }, sessionEstablished := false }
      | some p =>
          if check u.password_hash p then
            { resp := { status := 200, success := some true },
              sessionEstablished := true }
          else
            { resp := { status := 401, error := some "Invalid credentials" },
              sessionEstablished := false }

/-! ### Download submission (`add_download`, app.py lines 166-194) -/

/-- Result of a successful `client.offline_download` call, reduced to
the only part the handler inspects:
`task_id = result.get('task', {}).get('id')`.  `task_id = none` models
both a response without a `'task'` object and a `'task'` object without
an `'id'` field. -/
structure OfflineDownloadResult where
  task_id : Option String
deriving DecidableEq, Repr

/-- Output of `add_download`: response, `Task` table after the request,
client flag, effects.  `resp.success = some true` corresponds to the
`{'success': True, 'task': result}` body. -/
structure DownloadOut where
  resp : Resp
  tasks : List Task
  globalSet : Bool
  effects : List Effect
deriving Repr

/-- `POST /api/download`.  The handler never checks the client for
`None`: with an unavailable client the call inside the `try` raises an
`AttributeError`, caught as a 500.  A task row is stored only when the
extracted task id is truthy. -/
def add_download (url : Option String) (uid : Nat) (folder : Option String)
    (tasks : List Task) (c : ClientCtx)
    (dlOracle : Except String OfflineDownloadResult) (nextId : Nat) : DownloadOut :=
  let (client, g, fx) := get_pikpak_client c
  if !pyTruthy url then
    { resp := { status := 400, error := some "Magnet URL required" },
      tasks := tasks, globalSet := g, effects := fx }
  else
    let u := url.getD ""
    match client with
    | none =>
        { resp := { status := 500,
                    error := some "AttributeError: NoneType has no attribute offline_download" },
          tasks := tasks, globalSet := g, effects := fx }
    | some _ =>
        match dlOracle with
        | .error e =>
            { resp := { status := 500, error := some e },
              tasks := tasks, globalSet := g,
              effects := fx ++ [.offlineDownload u folder] }
        | .ok result =>
            if pyTruthy result.task_id then
              { resp := { status := 200, success := some true },
                tasks := tasks ++ [{ id := nextId, user_id := uid,
                                     pikpak_task_id := result.task_id.getD "",
                                     name := "New Download", status := "pending" }],
                globalSet := g, effects := fx ++ [.offlineDownload u folder] }
            else
              { resp := { status := 200, success := some true },
                tasks := tasks, globalSet := g,
                effects := fx ++ [.offlineDownload u folder] }

/-! ### Task listing (`list_tasks`, app.py lines 196-226) -/

/-- One task object in the upstream `offline_list` response; the
handler reads `t['id']` and passes the whole object through, so the
`status` field in the response is upstream's. -/
structure UpTask where
  id : String
  status : String
deriving DecidableEq, Repr

/-- Upstream `offline_list` response: the `'tasks'` key may be absent
(`if 'tasks' in pikpak_tasks`), plus `next_page_token`. -/
structure OfflineList where
  tasks : Option (List UpTask)
  next_page_token : Option String
deriving DecidableEq, Repr

/-- Output of `list_tasks`: response, the `'tasks'` list of the JSON
body (empty on the error and no-tasks paths), the `Task` table after
the request, client flag, effects. -/
structure TasksOut where
  resp : Resp
  respTasks : List UpTask
  tasks : List Task
  globalSet : Bool
  effects : List Effect
deriving Repr

/-- `GET /api/tasks`.  `get_pikpak_client` runs first; with no rows for
the user the handler returns `{'tasks': []}` without calling upstream;
otherwise it fetches `offline_list(limit=100)` and keeps the upstream
tasks whose id is among the user's recorded task ids. -/
def list_tasks (uid : Nat) (tasks : List Task) (c : ClientCtx)
    (listOracle : Except String OfflineList) : TasksOut :=
  let (client, g, fx) := get_pikpak_client c
  let user_tasks := tasks.filter (fun t => t.user_id = uid)
  if user_tasks.isEmpty then
    { resp := { status := 200 }, respTasks := [],
      tasks := tasks, globalSet := g, effects := fx }
  else
    match client with
    | none =>
        { resp := { status := 500,
                    error := some "AttributeError: NoneType has no attribute offline_list" },
          respTasks := [], tasks := tasks, globalSet := g, effects := fx }
    | some _ =>
        match listOracle with
        | .error e =>
            { resp := { status := 500, error := some e },
              respTasks := [], tasks := tasks, globalSet := g,
              effects := fx ++ [.offlineList 100] }
        | .ok pikpak_tasks =>
            let user_task_ids := user_tasks.map (fun t => t.pikpak_task_id)
            let filtered := match pikpak_tasks.tasks with
              | none => []
              | some ts => ts.filter (fun t => user_task_ids.contains t.id)
            { resp := { status := 200 }, respTasks := filtered,
              tasks := tasks, globalSet := g,
              effects := fx ++ [.offlineList 100] }

/-! ### Task deletion and retry (`delete_task` / `retry_task`,
app.py lines 230-267) -/

/-- Output of `delete_task` / `retry_task`. -/
structure TaskActionOut where
  resp : Resp
  tasks : List Task
  globalSet : Bool
  effects : List Effect
deriving Repr

/-- The ownership lookup used by both handlers:
`Task.query.filter_by(pikpak_task_id=task_id, user_id=current_user.id).first()`. -/
def findOwnedTask (task_id : String) (uid : Nat) (tasks : List Task) : Option Task :=
  (tasks.filter (fun t => t.pikpak_task_id = task_id ∧ t.user_id = uid)).head?

/-- Remove the first row matching the ownership predicate
(`db.session.delete(task)` on the row returned by `.first()`). -/
def eraseOwnedTask (task_id : String) (uid : Nat) : List Task → List Task
  | [] => []
  | t :: ts =>
      if t.pikpak_task_id = task_id ∧ t.user_id = uid then ts
      else t :: eraseOwnedTask task_id uid ts

/-- Number of rows of the `Task` table matching the ownership
predicate of `findOwnedTask`; used to state that a deletion removed
exactly one such row. -/
def ownedCount (task_id : String) (uid : Nat) (tasks : List Task) : Nat :=
  (tasks.filter (fun t => t.pikpak_task_id = task_id ∧ t.user_id = uid)).length

/-- `DELETE /api/tasks/<task_id>`.  `get_pikpak_client` runs before the
ownership check; an unowned id gets a 404 with no further upstream
call; on an owned id the upstream delete runs first and the local row
is removed only after it succeeds. -/
def delete_task (task_id : String) (delete_files : Bool) (uid : Nat)
    (tasks : List Task) (c : ClientCtx)
    (deleteOracle : Except String Unit) : TaskActionOut :=
  let (client, g, fx) := get_pikpak_client c
  match findOwnedTask task_id uid tasks with
  | none =>
      { resp := { status := 404, error := some "Task not found or access denied" },
        tasks := tasks, globalSet := g, effects := fx }
  | some _ =>
      match client with
      | none =>
          { resp := { status := 500,
                      error := some "AttributeError: NoneType has no attribute delete_tasks" },
            tasks := tasks, globalSet := g, effects := fx }
      | some _ =>
          match deleteOracle with
          | .error e =>
              { resp := { status := 500, error := some e },
                tasks := tasks, globalSet := g,
                effects := fx ++ [.deleteTasks [task_id] delete_files] }
          | .ok _ =>
              { resp := { status := 200, success := some true },
                tasks := eraseOwnedTask task_id uid tasks, globalSet := g,
                effects := fx ++ [.deleteTasks [task_id] delete_files] }

/-- `POST /api/tasks/<task_id>/retry`.  Same ownership gate as
`delete_task`; the local table is never mutated. -/
def retry_task (task_id : String) (uid : Nat) (tasks : List Task)
    (c : ClientCtx) (retryOracle : Except String Unit) : TaskActionOut :=
  let (client, g, fx) := get_pikpak_client c
  match findOwnedTask task_id uid tasks with
  | none =>
      { resp := { status := 404, error := some "Task not found or access denied" },
        tasks := tasks, globalSet := g, effects := fx }
  | some _ =>
      match client with
      | none =>
          { resp := { status := 500,
                      error := some "AttributeError: NoneType has no attribute offline_task_retry" },
            tasks := tasks, globalSet := g, effects := fx }
      | some _ =>
          match retryOracle with
          | .error e =>
              { resp := { status := 500, error := some e },
                tasks := tasks, globalSet := g,
                effects := fx ++ [.offlineTaskRetry task_id] }
          | .ok _ =>
              { resp := { status := 200, success := some true },
                tasks := tasks, globalSet := g,
                effects := fx ++ [.offlineTaskRetry task_id] }

/-! ### File endpoints (`get_file_info`, `get_download_url`,
`proxy_download`, `trash_files`, app.py lines 269-329) -/

/-- One entry of the upstream `medias` array, reduced to the only field
read: `medias[0].get('link', {}).get('url')`. -/
structure MediaEntry where
  link_url : Option String
deriving DecidableEq, Repr

/-- One value of the upstream `links` dict, reduced to the only field
read: `.get('url')`. -/
structure LinkEntry where
  url : Option String
deriving DecidableEq, Repr

/-- The upstream `get_download_url` response, reduced to the fields the
proxy probes.  `links` is the insertion-ordered dict, as key/value
pairs (`list(download_data['links'].values())[0]` is the first value). -/
structure DownloadData where
  web_content_link : Option String
  medias : Option (List MediaEntry)
  links : Option (List (String × LinkEntry))
deriving DecidableEq, Repr

/-- The URL-extraction chain of `proxy_download` (app.py lines 297-299):

    url = download_data.get('web_content_link') or
          (download_data.get('medias') and medias[0]...url) or
          (download_data.get('links') and list(links.values())[0].get('url'))

Python `or`/`and` keep the first truthy operand; the handler only tests
the result for truthiness and uses it as the fetch URL, so every falsy
outcome (`None`, `""`, `[]`, `{}`) is collapsed to `none`. -/
def extract_url (d : DownloadData) : Option String :=
  if pyTruthy d.web_content_link then d.web_content_link
  else
    let mediaUrl : Option String := match d.medias with
      | some (m :: _) => m.link_url
      | _ => none
    if pyTruthy mediaUrl then mediaUrl
    else
      let linkUrl : Option String := match d.links with
        | some (kv :: _) => kv.2.url
        | _ => none
      if pyTruthy linkUrl then linkUrl else none

/-- The second candidate of the extraction chain:
`download_data.get('medias') and download_data['medias'][0].get('link', {}).get('url')`,
as a value (the `and` is truthy only when `medias` is a non-empty list
and the first entry's link URL is truthy). -/
def firstMediaUrl (d : DownloadData) : Option String :=
  match d.medias with
  | some (m :: _) => m.link_url
  | _ => none

/-- The third candidate of the extraction chain:
`download_data.get('links') and list(download_data['links'].values())[0].get('url')`. -/
def firstLinkUrl (d : DownloadData) : Option String :=
  match d.links with
  | some (kv :: _) => kv.2.url
  | _ => none

/-- The fields of the upstream `offline_file_info` response that the
proxy reads for its response headers. -/
structure FileInfo where
  name : Option String
  mime_type : Option String
  size : Option String
deriving DecidableEq, Repr

/-- Output of `get_file_info` / `get_download_url`: response, the
relayed upstream payload (when any), client flag, effects. -/
structure FileInfoOut where
  resp : Resp
  payload : Option FileInfo
  globalSet : Bool
  effects : List Effect
deriving Repr

/-- `GET /api/files/<file_id>`.  No ownership check of any kind: the
given id goes straight to `client.offline_file_info` and the result is
relayed. -/
def get_file_info (file_id : String) (c : ClientCtx)
    (infoOracle : Except String FileInfo) : FileInfoOut :=
  let (client, g, fx) := get_pikpak_client c
  match client with
  | none =>
      { resp := { status := 500,
                  error := some "AttributeError: NoneType has no attribute offline_file_info" },
        payload := none, globalSet := g, effects := fx }
  | some _ =>
      match infoOracle with
      | .error e =>
          { resp := { status := 500, error := some e },
            payload := none, globalSet := g,
            effects := fx ++ [.offlineFileInfo file_id] }
      | .ok info =>
          { resp := { status := 200 }, payload := some info,
            globalSet := g, effects := fx ++ [.offlineFileInfo file_id] }

/-- Output of `get_download_url`. -/
structure UrlOut where
  resp : Resp
  payload : Option DownloadData
  globalSet : Bool
  effects : List Effect
deriving Repr

/-- `GET /api/files/<file_id>/url`.  No ownership check; the upstream
response is relayed verbatim. -/
def get_download_url (file_id : String) (c : ClientCtx)
    (urlOracle : Except String DownloadData) : UrlOut :=
  let (client, g, fx) := get_pikpak_client c
  match client with
  | none =>
      { resp := { status := 500,
                  error := some "AttributeError: NoneType has no attribute get_download_url" },
        payload := none, globalSet := g, effects := fx }
  | some _ =>
      match urlOracle with
      | .error e =>
          { resp := { status := 500, error := some e },
            payload := none, globalSet := g,
            effects := fx ++ [.getDownloadUrl file_id] }
      | .ok d =>
          { resp := { status := 200 }, payload := some d,
            globalSet := g, effects := fx ++ [.getDownloadUrl file_id] }

/-- Output of `proxy_download`: response (status 200 with
`streamedUrl` set when the relay starts), client flag, effects. -/
structure ProxyOut where
  resp : Resp
  streamedUrl : Option String
  globalSet : Bool
  effects : List Effect
deriving Repr

/-- `GET /api/proxy/download/<file_id>`.  Inside one `try`:
`offline_file_info`, then `get_download_url`, then the URL-extraction
chain (404 when it yields nothing truthy), then `requests.get(url)` and
the streamed 200 response.  Any raise anywhere in the `try` — including
metadata retrieval — becomes a 500 with the exception message. -/
def proxy_download (file_id : String) (c : ClientCtx)
    (infoOracle : Except String FileInfo)
    (urlOracle : Except String DownloadData)
    (fetchOracle : String → Except String Unit) : ProxyOut :=
  let (client, g, fx) := get_pikpak_client c
  match client with
  | none =>
      { resp := { status := 500,
                  error := some "AttributeError: NoneType has no attribute offline_file_info" },
        streamedUrl := none, globalSet := g, effects := fx }
  | some _ =>
      match infoOracle with
      | .error e =>
          { resp := { status := 500, error := some e },
            streamedUrl := none, globalSet := g,
            effects := fx ++ [.offlineFileInfo file_id] }
      | .ok _ =>
          match urlOracle with
          | .error e =>
              { resp := { status := 500, error := some e },
                streamedUrl := none, globalSet := g,
                effects := fx ++ [.offlineFileInfo file_id, .getDownloadUrl file_id] }
          | .ok download_data =>
              match extract_url download_data with
              | none =>
                  { resp := { status := 404, error := some "Download URL not found" },
                    streamedUrl := none, globalSet := g,
                    effects := fx ++ [.offlineFileInfo file_id, .getDownloadUrl file_id] }
              | some url =>
                  match fetchOracle url with
                  | .error e =>
                      { resp := { status := 500, error := some e },
                        streamedUrl := none, globalSet := g,
                        effects := fx ++ [.offlineFileInfo file_id,
                                          .getDownloadUrl file_id, .httpGet url] }
                  | .ok _ =>
                      { resp := { status := 200 }, streamedUrl := some url,
                        globalSet := g,
                        effects := fx ++ [.offlineFileInfo file_id,
                                          .getDownloadUrl file_id, .httpGet url] }

/-- Output of `trash_files`. -/
structure TrashOut where
  resp : Resp
  globalSet : Bool
  effects : List Effect
deriving Repr

/-- `POST /api/files/trash`.  `ids` is `data.get('ids', [])`; an empty
list is a 400.  No ownership check: the given ids go straight to
`client.delete_to_trash`. -/
def trash_files (file_ids : List String) (c : ClientCtx)
    (trashOracle : Except String Unit) : TrashOut :=
  let (client, g, fx) := get_pikpak_client c
  if file_ids.isEmpty then
    { resp := { status := 400, error := some "No file IDs" },
      globalSet := c.globalSet, effects := fx }
  else
    match client with
    | none =>
        { resp := { status := 500,
                    error := some "AttributeError: NoneType has no attribute delete_to_trash" },
          globalSet := g, effects := fx }
    | some _ =>
        match trashOracle with
        | .error e =>
            { resp := { status := 500, error := some e },
              globalSet := g, effects := fx ++ [.deleteToTrash file_ids] }
        | .ok _ =>
            { resp := { status := 200, success := some true },
              globalSet := g, effects := fx ++ [.deleteToTrash file_ids] }

/-! ### Authentication gate (`login_required` / `LoginManager`,
app.py lines 24-26 and the `@login_required` decorators) -/

/-- The routes of `app.py`. -/
inductive Endpoint where
  | register | login | logout | user | files | download | tasks
  | deleteTask | retryTask | fileInfo | fileUrl | proxyDownload
  | trash | quota | index
deriving DecidableEq, Repr

/-- Which routes carry `@login_required`: every route except
`/api/register`, `/api/login` and the static index. -/
def isProtected : Endpoint → Bool
  | .register => false
  | .login => false
  | .index => false
  | _ => true

/-- `login_manager.login_view = 'login'` (app.py line 26). -/
def login_view : Option String := some "login"

/-- flask-login's `LoginManager.unauthorized()`: with no
`unauthorized_callback` registered, it aborts with 401 when
`login_view` is unset and otherwise issues a 302 redirect to the login
view. -/
def unauthorized_response : Resp :=
  match login_view with
  | none => { status := 401 }
  | some v => { status := 302, redirect := some v }

/-- Dispatch of one request through the `@login_required` decorator:
for a protected endpoint with no valid session, `unauthorized()` runs
and the wrapped handler body never does; otherwise the body runs.
`body` supplies each handler's status and upstream effect trace. -/
def dispatch (e : Endpoint) (authenticated : Bool)
    (body : Endpoint → Resp × List Effect) : Resp × List Effect :=
  if isProtected e && !authenticated then (unauthorized_response, [])
  else body e

/-! ## Helper lemmas -/

/-- `.filter(...).first()` finds a row iff one satisfying the predicate
is in the table. -/
theorem filter_head_isSome {α : Type} (p : α → Bool) (l : List α) :
    ((l.filter p).head?).isSome = true ↔ ∃ a ∈ l, p a = true := by
  induction l with
  | nil => simp
  | cons x xs ih =>
      by_cases hx : p x = true
      · simp [List.filter_cons, hx]
      · simp [List.filter_cons, hx, ih]

/-- Deleting the row found by `findOwnedTask` removes exactly one
matching row. -/
theorem eraseOwnedTask_count (task_id : String) (uid : Nat) (tasks : List Task)
    (h : (findOwnedTask task_id uid tasks).isSome = true) :
    ownedCount task_id uid (eraseOwnedTask task_id uid tasks) + 1 =
      ownedCount task_id uid tasks := by
  induction tasks with
  | nil => simp [findOwnedTask] at h
  | cons t ts ih =>
      by_cases hp : (t.pikpak_task_id = task_id ∧ t.user_id = uid)
      · simp [eraseOwnedTask, ownedCount, List.filter_cons, hp]
      · have h' : (findOwnedTask task_id uid ts).isSome = true := by
          simpa [findOwnedTask, List.filter_cons, hp] using h
        simpa [eraseOwnedTask, ownedCount, List.filter_cons, hp] using ih h'

/-! ## C1 — authentication gate on protected endpoints -/

/-- C1, counterexample.  A request to the protected `GET /api/user`
without a session does **not** return 401: because
`login_manager.login_view = 'login'` is set, flask-login answers with a
302 redirect to the login view.  (The upstream client is still never
invoked.) -/
theorem C1_counterexample :
    (dispatch .user false (fun _ => ({ status := 200 }, []))).1.status = 302 ∧
    ¬ (dispatch .user false (fun _ => ({ status := 200 }, []))).1.status = 401 := by
  constructor <;> simp [dispatch, isProtected, unauthorized_response, login_view]

/-- C1, amended: for every request to a protected endpoint (every
endpoint except registration, login and the static index) without a
valid login session, the response is a 302 redirect to the configured
login view — not 401 — and the handler body never runs, so the upstream
PikPak client is never invoked (empty effect trace), whatever the
handler would have done. -/
theorem C1_protected_redirects_no_upstream (e : Endpoint)
    (body : Endpoint → Resp × List Effect) (h : isProtected e = true) :
    dispatch e false body = ({ status := 302, redirect := some "login" }, []) := by
  simp [dispatch, h, unauthorized_response, login_view]

/-- C1 witness: the amended theorem at the quota endpoint with a body
that would have called upstream. -/
theorem C1_witness :
    dispatch .quota false (fun _ => ({ status := 200 }, [.getQuotaInfo]))
      = ({ status := 302, redirect := some "login" }, []) :=
  C1_protected_redirects_no_upstream .quota
    (fun _ => ({ status := 200 }, [.getQuotaInfo])) rfl

/-! ## C2 — no ownership check on file endpoints -/

/-- A concrete calling user for the C2 counterexample. -/
def aliceC2 : User :=
  { id := 1, username := "alice", password_hash := "h1",
    pikpak_folder_id := some "folderA" }

/-- The upstream placement of files for the C2 counterexample: the
repository keeps no file-ownership state, so "owned by a user" can only
mean "resides in that user's provisioned upstream folder"; this map
records which user's folder each file is in.  File `"f9"` is in user
2's folder, not in `aliceC2`'s. -/
def fileOwnerC2 : String → Option Nat :=
  fun fid => if fid = "f9" then some 2 else none

/-- C2, counterexample.  User 1 (`aliceC2`) requests
`GET /api/files/f9` for a file residing in user 2's folder: the
endpoint does not return 404 — it invokes `offline_file_info` on the
file and returns 200 with the upstream payload, because the file
endpoints perform no ownership check at all. -/
theorem C2_counterexample :
    fileOwnerC2 "f9" ≠ some aliceC2.id ∧
    (get_file_info "f9" readyCtx
        (.ok { name := some "movie.mkv", mime_type := none, size := none })).resp.status = 200 ∧
    (get_file_info "f9" readyCtx
        (.ok { name := some "movie.mkv", mime_type := none, size := none })).effects
      = [.offlineFileInfo "f9"] := by
  refine ⟨?_, rfl, rfl⟩
  simp [fileOwnerC2, aliceC2]

/-- C2, amended: the file endpoints (file info, download-URL retrieval,
proxied download, trash) perform no ownership check.  For every calling
user and every assignment of files to users' folders, the endpoints
invoke the upstream client on the given file id and act on it (relaying
the upstream result) — they never answer 404 for a foreign file; the
404-on-unowned rule holds only for the task endpoints (see C7). -/
theorem C2_file_endpoints_no_ownership_check
    (_uid : Nat) (_owner : String → Option Nat) (file_id : String)
    (info : FileInfo) (d : DownloadData) (ids : List String)
    (fetch : String → Except String Unit) (hids : ids ≠ []) :
    ((get_file_info file_id readyCtx (.ok info)).resp.status = 200 ∧
     (get_file_info file_id readyCtx (.ok info)).payload = some info ∧
     (get_file_info file_id readyCtx (.ok info)).effects = [.offlineFileInfo file_id]) ∧
    ((get_download_url file_id readyCtx (.ok d)).resp.status = 200 ∧
     (get_download_url file_id readyCtx (.ok d)).payload = some d ∧
     (get_download_url file_id readyCtx (.ok d)).effects = [.getDownloadUrl file_id]) ∧
    ((proxy_download file_id readyCtx (.ok info) (.ok d) fetch).effects.head?
        = some (.offlineFileInfo file_id)) ∧
    ((trash_files ids readyCtx (.ok ())).resp.status = 200 ∧
     (trash_files ids readyCtx (.ok ())).effects = [.deleteToTrash ids]) := by
  refine ⟨⟨rfl, rfl, rfl⟩, ⟨rfl, rfl, rfl⟩, ?_, ?_, ?_⟩
  · cases hx : extract_url d with
    | none => simp [proxy_download, get_pikpak_client, readyCtx, hx]
    | some url =>
        cases hf : fetch url <;>
          simp [proxy_download, get_pikpak_client, readyCtx, hx, hf]
  · simp [trash_files, get_pikpak_client, readyCtx, hids]
  · simp [trash_files, get_pikpak_client, readyCtx, hids]

/-- C2 witness: the amended theorem at concrete inputs. -/
theorem C2_witness :
    (get_file_info "f1" readyCtx
        (.ok { name := none, mime_type := none, size := none })).resp.status = 200 ∧
    (trash_files ["f1"] readyCtx (.ok ())).resp.status = 200 := by
  have h := C2_file_endpoints_no_ownership_check 1 (fun _ => none) "f1"
    { name := none, mime_type := none, size := none }
    { web_content_link := none, medias := none, links := none }
    ["f1"] (fun _ => .ok ()) (by simp)
  exact ⟨h.1.1, h.2.2.2.1⟩

/-! ## C3 — URL extraction preference order in the proxy -/

/-- When the extraction chain yields a URL and the raw fetch succeeds,
the proxy streams exactly that URL with status 200. -/
theorem proxy_streams_extracted (fid : String) (info : FileInfo)
    (d : DownloadData) (url : String) (h : extract_url d = some url) :
    (proxy_download fid readyCtx (.ok info) (.ok d) (fun _ => .ok ())).streamedUrl
        = some url ∧
    (proxy_download fid readyCtx (.ok info) (.ok d) (fun _ => .ok ())).resp.status
        = 200 := by
  simp [proxy_download, get_pikpak_client, readyCtx, h]

/-- The extraction chain is the first truthy candidate among the three
probes, in order. -/
theorem extract_url_eq (d : DownloadData) :
    extract_url d =
      if pyTruthy d.web_content_link then d.web_content_link
      else if pyTruthy (firstMediaUrl d) then firstMediaUrl d
      else if pyTruthy (firstLinkUrl d) then firstLinkUrl d
      else none := by
  simp [extract_url, firstMediaUrl, firstLinkUrl]

/-- C3: the proxy extracts the URL to fetch by probing the upstream
response shapes in the fixed preference order — direct `web_content_link`
first, then the first media link, then the first entry of the generic
`links` map — and a response containing only a `links` map yields its
first contained URL, which the proxy streams (status 200) rather than
failing. -/
theorem C3_url_preference_order (fid : String) (info : FileInfo) (d : DownloadData) :
    (pyTruthy d.web_content_link = true →
      (proxy_download fid readyCtx (.ok info) (.ok d) (fun _ => .ok ())).streamedUrl
        = d.web_content_link) ∧
    (pyTruthy d.web_content_link = false → pyTruthy (firstMediaUrl d) = true →
      (proxy_download fid readyCtx (.ok info) (.ok d) (fun _ => .ok ())).streamedUrl
        = firstMediaUrl d) ∧
    (pyTruthy d.web_content_link = false → pyTruthy (firstMediaUrl d) = false →
      pyTruthy (firstLinkUrl d) = true →
      (proxy_download fid readyCtx (.ok info) (.ok d) (fun _ => .ok ())).streamedUrl
        = firstLinkUrl d) ∧
    (∀ key entry rest, d = { web_content_link := none, medias := none,
                             links := some ((key, entry) :: rest) } →
      pyTruthy entry.url = true →
      (proxy_download fid readyCtx (.ok info) (.ok d) (fun _ => .ok ())).streamedUrl
          = entry.url ∧
      (proxy_download fid readyCtx (.ok info) (.ok d) (fun _ => .ok ())).resp.status
          = 200) := by
  refine ⟨?_, ?_, ?_, ?_⟩
  · intro h1
    cases hw : d.web_content_link with
    | none => simp [pyTruthy, hw] at h1
    | some s =>
        have hs : (s != "") = true := by rw [hw] at h1; simpa [pyTruthy] using h1
        have hx : extract_url d = some s := by
          rw [extract_url_eq, hw]; simp [pyTruthy, hs]
        exact (proxy_streams_extracted fid info d s hx).1
  · intro h1 h2
    cases hm : firstMediaUrl d with
    | none => simp [pyTruthy, hm] at h2
    | some s =>
        have hs : (s != "") = true := by rw [hm] at h2; simpa [pyTruthy] using h2
        have hx : extract_url d = some s := by
          rw [extract_url_eq, h1, hm]; simp [pyTruthy, hs]
        exact (proxy_streams_extracted fid info d s hx).1
  · intro h1 h2 h3
    cases hl : firstLinkUrl d with
    | none => simp [pyTruthy, hl] at h3
    | some s =>
        have hs : (s != "") = true := by rw [hl] at h3; simpa [pyTruthy] using h3
        have hx : extract_url d = some s := by
          rw [extract_url_eq, h1, h2, hl]; simp [pyTruthy, hs]
        exact (proxy_streams_extracted fid info d s hx).1
  · intro key entry rest hd h1
    cases he : entry.url with
    | none => simp [pyTruthy, he] at h1
    | some s =>
        have hs : (s != "") = true := by rw [he] at h1; simpa [pyTruthy] using h1
        have hx : extract_url d = some s := by
          subst hd
          rw [extract_url_eq]
          simp [pyTruthy, firstMediaUrl, firstLinkUrl, he, hs]
        exact ⟨(proxy_streams_extracted fid info d s hx).1,
               (proxy_streams_extracted fid info d s hx).2⟩

/-- C3 witness: a response containing only a `links` map; the proxy
streams the first contained URL. -/
theorem C3_witness :
    (proxy_download "f1" readyCtx
        (.ok { name := none, mime_type := none, size := none })
        (.ok { web_content_link := none, medias := none,
               links := some [("k1", { url := some "http://a/x" })] })
        (fun _ => .ok ())).streamedUrl = some "http://a/x" :=
  ((C3_url_preference_order "f1"
      { name := none, mime_type := none, size := none }
      { web_content_link := none, medias := none,
        links := some [("k1", { url := some "http://a/x" })] }).2.2.2
    "k1" { url := some "http://a/x" } [] rfl (by decide)).1

/-! ## C4 — proxy error taxonomy -/

/-- C4: with the client available and both upstream calls succeeding,
the proxy answers 404 exactly when the extraction chain yields no
usable URL; when metadata retrieval (`offline_file_info`) itself
raises, it answers 500 carrying the exception message instead, for
every later oracle. -/
theorem C4_proxy_404_iff_no_url (fid : String) (c : ClientCtx)
    (hc : c.globalSet = true) (info : FileInfo) (d : DownloadData)
    (fetch : String → Except String Unit) :
    ((proxy_download fid c (.ok info) (.ok d) fetch).resp.status = 404 ↔
      extract_url d = none) ∧
    (∀ e urlO f2, (proxy_download fid c (.error e) urlO f2).resp.status = 500 ∧
                  (proxy_download fid c (.error e) urlO f2).resp.error = some e) := by
  constructor
  · cases hx : extract_url d with
    | none => simp [proxy_download, get_pikpak_client, hc, hx]
    | some url =>
        cases hf : fetch url <;>
          simp [proxy_download, get_pikpak_client, hc, hx, hf]
  · intro e urlO f2
    exact ⟨by simp [proxy_download, get_pikpak_client, hc],
           by simp [proxy_download, get_pikpak_client, hc]⟩

/-- C4 witness: a download-URL response with an empty `links` map has
no extractable URL, so the proxy 404s; on metadata failure it 500s. -/
theorem C4_witness :
    ((proxy_download "f1" readyCtx
        (.ok { name := none, mime_type := none, size := none })
        (.ok { web_content_link := none, medias := some [],
               links := some [] })
        (fun _ => .ok ())).resp.status = 404 ↔
      extract_url { web_content_link := none, medias := some [],
                    links := some [] } = none) ∧
    (proxy_download "f1" readyCtx (.error "boom")
        (.ok { web_content_link := none, medias := none, links := none })
        (fun _ => .ok ())).resp.status = 500 :=
  ⟨(C4_proxy_404_iff_no_url "f1" readyCtx rfl
      { name := none, mime_type := none, size := none }
      { web_content_link := none, medias := some [], links := some [] }
      (fun _ => .ok ())).1,
   ((C4_proxy_404_iff_no_url "f1" readyCtx rfl
      { name := none, mime_type := none, size := none }
      { web_content_link := none, medias := some [], links := some [] }
      (fun _ => .ok ())).2 "boom"
      (.ok { web_content_link := none, medias := none, links := none })
      (fun _ => .ok ())).1⟩

/-! ## C5 — delete_task atomicity -/

/-- C5: for a `DELETE /api/tasks/{task_id}` on a task owned by the
caller (client available), the local row is deleted exactly when the
upstream delete succeeds: on success the response is 200 and exactly
one matching row is removed; when the upstream call raises, the
response is 500 carrying the exception message and the `Task` table is
unchanged. -/
theorem C5_delete_task_atomic (task_id : String) (df : Bool) (uid : Nat)
    (tasks : List Task) (c : ClientCtx) (hc : c.globalSet = true)
    (hOwn : (findOwnedTask task_id uid tasks).isSome = true) :
    ((delete_task task_id df uid tasks c (.ok ())).resp.status = 200 ∧
     (delete_task task_id df uid tasks c (.ok ())).tasks
        = eraseOwnedTask task_id uid tasks ∧
     ownedCount task_id uid (delete_task task_id df uid tasks c (.ok ())).tasks + 1
        = ownedCount task_id uid tasks) ∧
    (∀ e, (delete_task task_id df uid tasks c (.error e)).resp.status = 500 ∧
          (delete_task task_id df uid tasks c (.error e)).resp.error = some e ∧
          (delete_task task_id df uid tasks c (.error e)).tasks = tasks) := by
  obtain ⟨t, ht⟩ := Option.isSome_iff_exists.mp hOwn
  refine ⟨⟨?_, ?_, ?_⟩, ?_⟩
  · simp [delete_task, get_pikpak_client, hc, ht]
  · simp [delete_task, get_pikpak_client, hc, ht]
  · have h2 : (delete_task task_id df uid tasks c (.ok ())).tasks
        = eraseOwnedTask task_id uid tasks := by
      simp [delete_task, get_pikpak_client, hc, ht]
    rw [h2]
    exact eraseOwnedTask_count task_id uid tasks hOwn
  · intro e
    refine ⟨?_, ?_, ?_⟩ <;> simp [delete_task, get_pikpak_client, hc, ht]

/-- C5 witness: a one-row table owned by user 1; the upstream success
case deletes the row, the failure case keeps it with a 500. -/
theorem C5_witness :
    (delete_task "t1" false 1
        [{ id := 1, user_id := 1, pikpak_task_id := "t1",
           name := "n", status := "pending" }] readyCtx (.ok ())).resp.status = 200 ∧
    (delete_task "t1" false 1
        [{ id := 1, user_id := 1, pikpak_task_id := "t1",
           name := "n", status := "pending" }] readyCtx (.error "boom")).resp.error
      = some "boom" := by
  have h := C5_delete_task_atomic "t1" false 1
    [{ id := 1, user_id := 1, pikpak_task_id := "t1",
       name := "n", status := "pending" }] readyCtx rfl (by decide)
  exact ⟨h.1.1, (h.2 "boom").2.1⟩

/-! ## C6 — registration preserves username uniqueness -/

/-- C6: registering a username that already exists returns 400, leaves
the `User` table unchanged and performs no upstream call at all (in
particular no folder creation); and every registration, whatever its
input and oracle outcomes, preserves the uniqueness of usernames. -/
theorem C6_register_unique (uname : String) (password : Option String)
    (users : List User) (c : ClientCtx) (fo : Except String (Option String))
    (hash : String → String) (nextId : Nat)
    (hex : ∃ u ∈ users, u.username = uname) :
    ((register (some uname) password users c fo hash nextId).resp.status = 400 ∧
     (register (some uname) password users c fo hash nextId).users = users ∧
     (register (some uname) password users c fo hash nextId).effects = []) ∧
    (∀ un pw us c2 fo2 h2 n2, ((us.map User.username).Nodup) →
      (((register un pw us c2 fo2 h2 n2).users.map User.username).Nodup)) := by
  constructor
  · by_cases hmiss : (!pyTruthy (some uname) || !pyTruthy password) = true
    · refine ⟨?_, ?_, ?_⟩ <;> simp [register, hmiss]
    · refine ⟨?_, ?_, ?_⟩ <;> simp [register, hmiss, hex]
  · intro un pw us c2 fo2 h2 n2 hnd
    by_cases hmiss : (!pyTruthy un || !pyTruthy pw) = true
    · simpa [register, hmiss] using hnd
    · by_cases hdup : ∃ x ∈ us, x.username = un.getD ""
      · simpa [register, hmiss, hdup] using hnd
      · have hnotin : un.getD "" ∉ us.map User.username := by
          intro hmem
          obtain ⟨u, hu, he⟩ := List.mem_map.mp hmem
          exact hdup ⟨u, hu, he⟩
        rcases hgp : get_pikpak_client c2 with ⟨cl, g, fx⟩
        cases cl with
        | none => simpa [register, hmiss, hdup, hgp] using hnd
        | some _ =>
            cases fo2 with
            | error e => simpa [register, hmiss, hdup, hgp] using hnd
            | ok fid =>
                have hu : (register un pw us c2 (.ok fid) h2 n2).users
                    = us ++ [{ id := n2, username := un.getD "",
                               password_hash := h2 (pw.getD ""),
                               pikpak_folder_id := fid }] := by
                  simp [register, hmiss, hdup, hgp]
                rw [hu, List.map_append, List.nodup_append]
                refine ⟨hnd, List.nodup_singleton _, ?_⟩
                intro a ha hb
                simp only [List.map_cons, List.map_nil, List.mem_singleton] at hb
                exact hnotin (hb ▸ ha)

/-- C6 witness: registering `"bob"` when a user `"bob"` exists: 400,
unchanged table, empty effect trace; and uniqueness is preserved. -/
theorem C6_witness :
    (register (some "bob") (some "pw")
        [{ id := 1, username := "bob", password_hash := "h",
           pikpak_folder_id := none }] readyCtx (.ok none) (fun s => s) 2).resp.status
      = 400 ∧
    (register (some "bob") (some "pw")
        [{ id := 1, username := "bob", password_hash := "h",
           pikpak_folder_id := none }] readyCtx (.ok none) (fun s => s) 2).effects
      = [] := by
  have h := C6_register_unique "bob" (some "pw")
    [{ id := 1, username := "bob", password_hash := "h",
       pikpak_folder_id := none }] readyCtx (.ok none) (fun s => s) 2
    ⟨{ id := 1, username := "bob", password_hash := "h",
       pikpak_folder_id := none }, by simp, rfl⟩
  exact ⟨h.1.1, h.1.2.2⟩

/-! ## C7 — unowned task: 404, but the lazy client login precedes the
ownership check -/

/-- The effects of `get_pikpak_client` are never a per-task upstream
operation (at most the one-time client login). -/
theorem get_pikpak_client_no_task_op (c : ClientCtx) :
    ∀ eff ∈ (get_pikpak_client c).2.2, eff.isTaskOp = false := by
  rcases c with ⟨g, e, l⟩
  cases g <;> cases e <;> cases l <;> decide

/-- C7, counterexample.  With the process-wide client not yet
initialised, `DELETE /api/tasks/t1` on a task not owned by the caller
still performs an upstream call: `get_pikpak_client` runs before the
ownership check and logs in to PikPak.  The response is the expected
404, but the effect trace is not empty. -/
theorem C7_counterexample :
    (delete_task "t1" false 1 []
        { globalSet := false, envCreds := true, loginOk := true }
        (.ok ())).resp.status = 404 ∧
    (delete_task "t1" false 1 []
        { globalSet := false, envCreds := true, loginOk := true }
        (.ok ())).effects = [.clientLogin] ∧
    (delete_task "t1" false 1 []
        { globalSet := false, envCreds := true, loginOk := true }
        (.ok ())).effects ≠ [] := by
  refine ⟨rfl, rfl, by decide⟩

/-- C7, amended: for every DELETE or retry request on a task id with no
row matching both the id and the calling user, the endpoint returns 404,
leaves the `Task` table unchanged, and performs no per-task upstream
operation (no `delete_tasks`, no `offline_task_retry`); the only
upstream interaction possible on this path is the one-time lazy client
login done by `get_pikpak_client` before the ownership check. -/
theorem C7_unowned_task_404 (task_id : String) (uid : Nat)
    (tasks : List Task) (c : ClientCtx) (df : Bool)
    (dOr rOr : Except String Unit)
    (h : findOwnedTask task_id uid tasks = none) :
    ((delete_task task_id df uid tasks c dOr).resp.status = 404 ∧
     (delete_task task_id df uid tasks c dOr).tasks = tasks ∧
     (∀ eff ∈ (delete_task task_id df uid tasks c dOr).effects,
        eff.isTaskOp = false)) ∧
    ((retry_task task_id uid tasks c rOr).resp.status = 404 ∧
     (retry_task task_id uid tasks c rOr).tasks = tasks ∧
     (∀ eff ∈ (retry_task task_id uid tasks c rOr).effects,
        eff.isTaskOp = false)) := by
  rcases hgp : get_pikpak_client c with ⟨cl, g, fx⟩
  have hfx : ∀ eff ∈ fx, eff.isTaskOp = false := by
    have := get_pikpak_client_no_task_op c
    rw [hgp] at this
    exact this
  refine ⟨⟨?_, ?_, ?_⟩, ⟨?_, ?_, ?_⟩⟩ <;>
    simp [delete_task, retry_task, hgp, h]
  · exact hfx
  · exact hfx

/-- C7 witness: the amended theorem on an empty task table in the
steady client state. -/
theorem C7_witness :
    (delete_task "t9" true 7 [] readyCtx (.ok ())).resp.status = 404 ∧
    (retry_task "t9" 7 [] readyCtx (.ok ())).resp.status = 404 := by
  have h := C7_unowned_task_404 "t9" 7 [] readyCtx true (.ok ()) (.ok ()) rfl
  exact ⟨h.1.1, h.2.1⟩

/-! ## C8 — invalid login -/

/-- C8: every login attempt whose username is not in the `User` table,
and every attempt carrying a password that fails the hash check against
the found user's stored hash, gets a 401 and establishes no session
(`login_user` is never reached). -/
theorem C8_invalid_login (username password : Option String)
    (users : List User) (check : String → String → Bool) :
    ((∀ u ∈ users, some u.username ≠ username) →
      (login username password users check).resp.status = 401 ∧
      (login username password users check).sessionEstablished = false) ∧
    (∀ u p, (users.filter (fun v => some v.username = username)).head? = some u →
      password = some p → check u.password_hash p = false →
      (login username password users check).resp.status = 401 ∧
      (login username password users check).sessionEstablished = false) := by
  constructor
  · intro hno
    have hnil : users.filter (fun v => some v.username = username) = [] := by
      rw [List.filter_eq_nil_iff]
      intro u hu
      simpa using hno u hu
    constructor <;> simp [login, hnil]
  · intro u p hfind hp hcheck
    subst hp
    constructor <;> simp [login, hfind, hcheck]

/-- C8 witness: unknown username, and known username with a wrong
password, both 401 without a session. -/
theorem C8_witness :
    ((login (some "ghost") (some "pw")
        [{ id := 1, username := "bob", password_hash := "H", pikpak_folder_id := none }]
        (fun h p => h = p)).resp.status = 401 ∧
     (login (some "ghost") (some "pw")
        [{ id := 1, username := "bob", password_hash := "H", pikpak_folder_id := none }]
        (fun h p => h = p)).sessionEstablished = false) ∧
    ((login (some "bob") (some "wrong")
        [{ id := 1, username := "bob", password_hash := "H", pikpak_folder_id := none }]
        (fun h p => h = p)).resp.status = 401 ∧
     (login (some "bob") (some "wrong")
        [{ id := 1, username := "bob", password_hash := "H", pikpak_folder_id := none }]
        (fun h p => h = p)).sessionEstablished = false) :=
  ⟨(C8_invalid_login (some "ghost") (some "pw")
      [{ id := 1, username := "bob", password_hash := "H", pikpak_folder_id := none }]
      (fun h p => h = p)).1 (by decide),
   (C8_invalid_login (some "bob") (some "wrong")
      [{ id := 1, username := "bob", password_hash := "H", pikpak_folder_id := none }]
      (fun h p => h = p)).2
      { id := 1, username := "bob", password_hash := "H", pikpak_folder_id := none }
      "wrong" (by decide) rfl (by decide)⟩

/-! ## C9 — task listing leaves the table unchanged, statuses are live -/

/-- C9: `GET /api/tasks` never mutates the caller's `Task` rows (the
stored status is never updated from upstream), and on the success path
the `'tasks'` of the response are exactly the live upstream tasks
filtered to the ids recorded for the user — each carried status is
upstream's, not the stored one. -/
theorem C9_list_tasks_frame (uid : Nat) (tasks : List Task) (c : ClientCtx)
    (lo : Except String OfflineList) :
    (list_tasks uid tasks c lo).tasks = tasks ∧
    (∀ ts npt, c.globalSet = true →
      lo = Except.ok { tasks := some ts, next_page_token := npt } →
      (tasks.filter (fun t => t.user_id = uid)).isEmpty = false →
      (list_tasks uid tasks c lo).respTasks
        = ts.filter (fun t =>
            ((tasks.filter (fun t2 => t2.user_id = uid)).map
                Task.pikpak_task_id).contains t.id)) := by
  constructor
  · rcases hgp : get_pikpak_client c with ⟨cl, g, fx⟩
    by_cases he : (tasks.filter (fun t => t.user_id = uid)).isEmpty = true
    · simp [list_tasks, hgp, he]
    · cases cl with
      | none => simp [list_tasks, hgp, he]
      | some _ =>
          cases lo with
          | error e => simp [list_tasks, hgp, he]
          | ok pl => simp [list_tasks, hgp, he]
  · intro ts npt hc hlo hne
    subst hlo
    simp [list_tasks, get_pikpak_client, hc, hne]

/-- C9 witness: one stored row with stale status `"pending"`; the
response carries the upstream status `"done"` for that id and the table
is unchanged. -/
theorem C9_witness :
    (list_tasks 1 [{ id := 1, user_id := 1, pikpak_task_id := "t1",
                     name := "n", status := "pending" }] readyCtx
        (.ok { tasks := some [{ id := "t1", status := "done" },
                              { id := "t2", status := "done" }],
               next_page_token := none })).tasks
      = [{ id := 1, user_id := 1, pikpak_task_id := "t1",
           name := "n", status := "pending" }] ∧
    (list_tasks 1 [{ id := 1, user_id := 1, pikpak_task_id := "t1",
                     name := "n", status := "pending" }] readyCtx
        (.ok { tasks := some [{ id := "t1", status := "done" },
                              { id := "t2", status := "done" }],
               next_page_token := none })).respTasks
      = [{ id := "t1", status := "done" }] := by
  have h := C9_list_tasks_frame 1
    [{ id := 1, user_id := 1, pikpak_task_id := "t1",
       name := "n", status := "pending" }] readyCtx
    (.ok { tasks := some [{ id := "t1", status := "done" },
                          { id := "t2", status := "done" }],
           next_page_token := none })
  refine ⟨h.1, ?_⟩
  rw [h.2 [{ id := "t1", status := "done" }, { id := "t2", status := "done" }]
      none rfl rfl (by decide)]
  decide

/-! ## C10 — successful download with no upstream task id -/

/-- C10: an authenticated `POST /api/download` whose upstream
`offline_download` succeeds but yields no task id still answers 200
with success `true`, creates no local `Task` row, and therefore leaves
every subsequent `GET /api/tasks` response unchanged. -/
theorem C10_download_without_task_id (u : String) (uid : Nat)
    (folder : Option String) (tasks : List Task) (c : ClientCtx)
    (r : OfflineDownloadResult) (nextId : Nat)
    (hc : c.globalSet = true) (hu : (u != "") = true)
    (hid : pyTruthy r.task_id = false) :
    (add_download (some u) uid folder tasks c (.ok r) nextId).resp.status = 200 ∧
    (add_download (some u) uid folder tasks c (.ok r) nextId).resp.success
        = some true ∧
    (add_download (some u) uid folder tasks c (.ok r) nextId).tasks = tasks ∧
    (∀ c2 lo, list_tasks uid
        (add_download (some u) uid folder tasks c (.ok r) nextId).tasks c2 lo
      = list_tasks uid tasks c2 lo) := by
  have hu' : pyTruthy (some u) = true := by simpa [pyTruthy] using hu
  have ht : (add_download (some u) uid folder tasks c (.ok r) nextId).tasks
      = tasks := by
    simp [add_download, get_pikpak_client, hc, hu', hid]
  refine ⟨?_, ?_, ht, ?_⟩
  · simp [add_download, get_pikpak_client, hc, hu', hid]
  · simp [add_download, get_pikpak_client, hc, hu', hid]
  · intro c2 lo
    rw [ht]

/-- C10 witness: a magnet submission whose upstream response lacks a
task id. -/
theorem C10_witness :
    (add_download (some "magnet:?xt=x") 1 (some "folderA") [] readyCtx
        (.ok { task_id := none }) 5).resp.status = 200 ∧
    (add_download (some "magnet:?xt=x") 1 (some "folderA") [] readyCtx
        (.ok { task_id := none }) 5).tasks = [] := by
  have h := C10_download_without_task_id "magnet:?xt=x" 1 (some "folderA") []
    readyCtx { task_id := none } 5 rfl (by decide) (by decide)
  exact ⟨h.1, h.2.2.1⟩

end PikPak
